import Mathlib

/-!
Verification of the Volkshash quorum-commitment consensus engine.

Shallow embedding of:
* the LLMQ parameter tables registered per network (src/chainparams.cpp),
* the coinbase special transaction checks (src/evo/cbtx.cpp, src/evo/cbtx.h),
* the masternode payment-vote hashing serialization (src/masternode-payments.h),
* the quorum block processor (declared in src/llmq/quorums_blockprocessor.h;
  its implementation file is not part of this excerpt, so those operations are
  modelled from the specification, as marked in their doc comments).

Machine integers are modelled as Nat/Int: all quantities involved stay far
below the 32/64-bit bounds, and no source path relies on wrap-around.
-/

/-- Quorum type identifiers, `Consensus::LLMQType` (referenced from
src/chainparams.cpp; the enum itself lives in consensus/params.h). -/
inductive LLMQType where
  | LLMQ_10_60
  | LLMQ_50_60
  | LLMQ_400_60
  | LLMQ_400_85
  deriving DecidableEq, Repr

/-- `Consensus::LLMQParams` record as populated in src/chainparams.cpp. -/
structure LLMQParams where
  type : LLMQType
  name : String
  size : Nat
  minSize : Nat
  threshold : Nat
  dkgInterval : Nat
  dkgPhaseBlocks : Nat
  dkgMiningWindowStart : Nat
  dkgMiningWindowEnd : Nat
  deriving DecidableEq, Repr

/-- src/chainparams.cpp lines 101-112: the test-only quorum type. -/
def llmq10_60 : LLMQParams :=
  { type := LLMQType.LLMQ_10_60
    name := "llmq_10"
    size := 10
    minSize := 6
    threshold := 6
    dkgInterval := 24
    dkgPhaseBlocks := 2
    dkgMiningWindowStart := 10
    dkgMiningWindowEnd := 18 }

/-- src/chainparams.cpp lines 114-125. -/
def llmq50_60 : LLMQParams :=
  { type := LLMQType.LLMQ_50_60
    name := "llmq_50_60"
    size := 50
    minSize := 40
    threshold := 30
    dkgInterval := 24
    dkgPhaseBlocks := 2
    dkgMiningWindowStart := 10
    dkgMiningWindowEnd := 18 }

/-- src/chainparams.cpp lines 127-138; dkgInterval is 24 * 12. -/
def llmq400_60 : LLMQParams :=
  { type := LLMQType.LLMQ_400_60
    name := "llmq_400_51"
    size := 400
    minSize := 300
    threshold := 240
    dkgInterval := 24 * 12
    dkgPhaseBlocks := 4
    dkgMiningWindowStart := 20
    dkgMiningWindowEnd := 28 }

/-- src/chainparams.cpp lines 141-152; dkgInterval is 24 * 24. -/
def llmq400_85 : LLMQParams :=
  { type := LLMQType.LLMQ_400_85
    name := "llmq_400_85"
    size := 400
    minSize := 350
    threshold := 340
    dkgInterval := 24 * 24
    dkgPhaseBlocks := 4
    dkgMiningWindowStart := 20
    dkgMiningWindowEnd := 48 }

/-- `CMainParams` llmq registrations, src/chainparams.cpp lines 298-301. -/
def mainLLMQs : List LLMQParams := [llmq50_60, llmq400_60, llmq400_85]

/-- `CTestNetParams` llmq registrations, src/chainparams.cpp lines 452-455. -/
def testLLMQs : List LLMQParams := [llmq50_60, llmq400_60, llmq400_85]

/-- `CDevNetParams` llmq registrations, src/chainparams.cpp lines 600-603. -/
def devLLMQs : List LLMQParams := [llmq50_60, llmq400_60, llmq400_85]

/-- `CRegTestParams` llmq registrations, src/chainparams.cpp lines 799-801. -/
def regtestLLMQs : List LLMQParams := [llmq10_60, llmq50_60]

/-- Every quorum parameters record registered on some network. -/
def allRegisteredLLMQs : List LLMQParams :=
  mainLLMQs ++ testLLMQs ++ devLLMQs ++ regtestLLMQs

/-- C1 counterexample: the spec invariant `minSize ≤ threshold ≤ size` fails on
the registered record llmq50_60 (main network), whose minSize is 40 and
threshold is 30; hence the universally quantified claim is false. -/
theorem llmq_minSize_le_threshold_fails :
    llmq50_60 ∈ mainLLMQs ∧ llmq50_60 ∈ allRegisteredLLMQs ∧
    ¬ (llmq50_60.minSize ≤ llmq50_60.threshold ∧
       llmq50_60.threshold ≤ llmq50_60.size) := by
  decide

/-- C1 (amended): for every quorum parameters record registered on any network,
`threshold ≤ minSize ≤ size` holds (the code orders threshold below minSize,
the reverse of the spec's stated invariant). -/
theorem llmq_threshold_le_minSize_le_size :
    ∀ p ∈ allRegisteredLLMQs, p.threshold ≤ p.minSize ∧ p.minSize ≤ p.size := by
  decide

/-- C1 witness: the amended invariant holds at the concrete registered record
llmq50_60. -/
theorem llmq_threshold_le_minSize_le_size_witness :
    llmq50_60 ∈ allRegisteredLLMQs ∧
    (llmq50_60.threshold ≤ llmq50_60.minSize ∧ llmq50_60.minSize ≤ llmq50_60.size) :=
  ⟨by decide, llmq_threshold_le_minSize_le_size llmq50_60 (by decide)⟩

/-- C6: the networks register a quorum type LLMQ_50_60 whose parameters are
exactly size=50, minSize=40, threshold=30, dkgInterval=24, dkgPhaseBlocks=2,
dkgMiningWindowStart=10, dkgMiningWindowEnd=18, and this record is registered
on main, test, dev and regtest. -/
theorem llmq50_60_params_exact :
    llmq50_60.type = LLMQType.LLMQ_50_60 ∧
    llmq50_60.size = 50 ∧
    llmq50_60.minSize = 40 ∧
    llmq50_60.threshold = 30 ∧
    llmq50_60.dkgInterval = 24 ∧
    llmq50_60.dkgPhaseBlocks = 2 ∧
    llmq50_60.dkgMiningWindowStart = 10 ∧
    llmq50_60.dkgMiningWindowEnd = 18 ∧
    llmq50_60 ∈ mainLLMQs ∧ llmq50_60 ∈ testLLMQs ∧
    llmq50_60 ∈ devLLMQs ∧ llmq50_60 ∈ regtestLLMQs := by
  decide

/-- C7: for every registered quorum parameters record, the mining window is
non-empty (`dkgMiningWindowStart < dkgMiningWindowEnd`) and its end is
reachable within the DKG interval (`dkgMiningWindowEnd < dkgInterval`). -/
theorem llmq_mining_window_wellformed :
    ∀ p ∈ allRegisteredLLMQs,
      p.dkgMiningWindowStart < p.dkgMiningWindowEnd ∧
      p.dkgMiningWindowEnd < p.dkgInterval := by
  decide

/-- C7 witness: the window invariant holds at the concrete registered record
llmq400_85 (window 20..48 inside interval 576). -/
theorem llmq_mining_window_wellformed_witness :
    llmq400_85 ∈ allRegisteredLLMQs ∧
    (llmq400_85.dkgMiningWindowStart < llmq400_85.dkgMiningWindowEnd ∧
     llmq400_85.dkgMiningWindowEnd < llmq400_85.dkgInterval) :=
  ⟨by decide, llmq_mining_window_wellformed llmq400_85 (by decide)⟩

/-! ### Quorum window calculator and commitment validator

`CQuorumBlockProcessor` (src/llmq/quorums_blockprocessor.h lines 49-54)
declares `GetCommitmentsFromBlock`, `ProcessCommitment`, `IsMiningPhase`,
`IsCommitmentRequired` and `GetQuorumBlockHash`; their implementation file is
not part of this excerpt, so the definitions below are modelled from the
specification (sections 4.1-4.3 of spec.md). -/

/-- Look up the registered parameters for a quorum type on a network's
registration list (the `consensus.llmqs` map keyed by `Consensus::LLMQType`). -/
def GetLLMQParams (llmqs : List LLMQParams) (t : LLMQType) : Option LLMQParams :=
  llmqs.find? (fun p => p.type = t)

/-- Number of set bits of a bit-set. -/
def popcount (bs : List Bool) : Nat := bs.count true

/-- `CFinalCommitment` (src/llmq/quorums_commitment.h, included by the block
processor header; the field list follows the spec's Final Commitment record:
quorum type, quorum hash, valid-member bit-set, aggregated threshold public
key, aggregated signature, signer bit-set). Hashes and the two aggregated
cryptographic values are abstracted as Nat, since the validator under study
only enforces structural and positional legality. -/
structure CFinalCommitment where
  quorumType : LLMQType
  quorumHash : Nat
  validMembers : List Bool
  quorumPublicKey : Nat
  quorumSig : Nat
  signers : List Bool
  deriving DecidableEq, Repr

/-- Error taxonomy of the commitment consensus engine (spec.md section 7). -/
inductive ValError where
  | InvalidStructure
  | WrongWindow
  | Duplicate
  | TooManyCommitments
  | MissingRequiredCommitment
  | Stale
  deriving DecidableEq, Repr

/-- Modelled from the spec: `CQuorumBlockProcessor::IsMiningPhase`
(src/llmq/quorums_blockprocessor.h line 52; the implementation file is
missing from the excerpt). Spec section 4.1: true when
`(height mod dkgInterval)` lies within `[dkgMiningWindowStart,
dkgMiningWindowEnd)`. -/
def IsMiningPhase (params : LLMQParams) (nHeight : Nat) : Bool :=
  let phaseIndex := nHeight % params.dkgInterval
  params.dkgMiningWindowStart ≤ phaseIndex ∧ phaseIndex < params.dkgMiningWindowEnd

/-- `IsMiningPhase` keyed by quorum type, resolving parameters through the
network's registration table as the header's signature
`IsMiningPhase(Consensus::LLMQType llmqType, int nHeight)` does. -/
def IsMiningPhaseT (llmqs : List LLMQParams) (t : LLMQType) (nHeight : Nat) : Bool :=
  match GetLLMQParams llmqs t with
  | some params => IsMiningPhase params nHeight
  | none => false

/-- The Mined Commitment Index: persistent mapping keyed by
`(quorumType, quorumHash)`, the consensus state held in CEvoDB. -/
def QKey := LLMQType × Nat
deriving instance DecidableEq for QKey

def MinedIndex := QKey → Option CFinalCommitment

def emptyMined : MinedIndex := fun _ => none

def commitmentKey (qc : CFinalCommitment) : QKey := (qc.quorumType, qc.quorumHash)

def insertMined (k : QKey) (qc : CFinalCommitment) (s : MinedIndex) : MinedIndex :=
  fun k' => if k' = k then some qc else s k'

def eraseMined (k : QKey) (s : MinedIndex) : MinedIndex :=
  fun k' => if k' = k then none else s k'

/-- Modelled from the spec: the Commitment Validator backing
`CQuorumBlockProcessor::ProcessCommitment` (src/llmq/quorums_blockprocessor.h
line 51; the implementation file is missing from the excerpt). Spec section
4.2: fails with InvalidStructure if the quorum type is unknown, if
signer/valid-member bit-set lengths do not match the configured size, or if
signer count < threshold or valid-member count < minSize; fails with
WrongWindow if the expected quorum block hash differs from the commitment's
quorum hash or the height is outside the mining phase; fails with Duplicate
if a commitment for the same key is already accepted; otherwise succeeds
without mutating anything. `quorumBlockHash` abstracts the chain-dependent
`GetQuorumBlockHash`. -/
def ValidateCommitment (llmqs : List LLMQParams) (s : MinedIndex)
    (quorumBlockHash : LLMQType → Nat → Nat)
    (qc : CFinalCommitment) (nHeight : Nat) : Except ValError Unit :=
  match GetLLMQParams llmqs qc.quorumType with
  | none => Except.error ValError.InvalidStructure
  | some params =>
    if qc.signers.length ≠ params.size ∨ qc.validMembers.length ≠ params.size then
      Except.error ValError.InvalidStructure
    else if popcount qc.signers < params.threshold ∨
            popcount qc.validMembers < params.minSize then
      Except.error ValError.InvalidStructure
    else if quorumBlockHash qc.quorumType nHeight ≠ qc.quorumHash ∨
            ¬ IsMiningPhase params nHeight then
      Except.error ValError.WrongWindow
    else if (s (commitmentKey qc)).isSome then
      Except.error ValError.Duplicate
    else
      Except.ok ()

/-- C4: for every network table, quorum type and height with registered
parameters `p`, `IsMiningPhase` is true iff `(height mod dkgInterval)` lies in
the half-open range `[dkgMiningWindowStart, dkgMiningWindowEnd)`; in
particular, with the llmq50_60 parameters an interval offset of 5 is outside
the mining phase and an offset of 12 is inside it. -/
theorem IsMiningPhase_window_iff :
    (∀ (llmqs : List LLMQParams) (t : LLMQType) (nHeight : Nat) (p : LLMQParams),
      GetLLMQParams llmqs t = some p →
      (IsMiningPhaseT llmqs t nHeight = true ↔
        p.dkgMiningWindowStart ≤ nHeight % p.dkgInterval ∧
        nHeight % p.dkgInterval < p.dkgMiningWindowEnd)) ∧
    IsMiningPhaseT mainLLMQs LLMQType.LLMQ_50_60 5 = false ∧
    IsMiningPhaseT mainLLMQs LLMQType.LLMQ_50_60 12 = true := by
  refine ⟨?_, by decide, by decide⟩
  intro llmqs t nHeight p hfind
  simp [IsMiningPhaseT, hfind, IsMiningPhase]

/-- C4 witness: with the main-network table and quorum type LLMQ_50_60
(resolving to llmq50_60), the window characterization holds at height 12. -/
theorem IsMiningPhase_window_iff_witness :
    GetLLMQParams mainLLMQs LLMQType.LLMQ_50_60 = some llmq50_60 ∧
    (IsMiningPhaseT mainLLMQs LLMQType.LLMQ_50_60 12 = true ↔
      llmq50_60.dkgMiningWindowStart ≤ 12 % llmq50_60.dkgInterval ∧
      12 % llmq50_60.dkgInterval < llmq50_60.dkgMiningWindowEnd) :=
  ⟨by decide,
    IsMiningPhase_window_iff.1 mainLLMQs LLMQType.LLMQ_50_60 12 llmq50_60 (by decide)⟩

/-- C5: a candidate commitment whose signer bit-set popcount is below the
configured threshold is rejected with InvalidStructure, even when the
valid-member count satisfies minSize (structural checks precede window and
duplicate checks). -/
theorem ProcessCommitment_low_signers
    (llmqs : List LLMQParams) (s : MinedIndex)
    (quorumBlockHash : LLMQType → Nat → Nat)
    (qc : CFinalCommitment) (nHeight : Nat) (params : LLMQParams)
    (hfind : GetLLMQParams llmqs qc.quorumType = some params)
    (hsl : qc.signers.length = params.size)
    (hvl : qc.validMembers.length = params.size)
    (hvm : params.minSize ≤ popcount qc.validMembers)
    (hlow : popcount qc.signers < params.threshold) :
    ValidateCommitment llmqs s quorumBlockHash qc nHeight =
      Except.error ValError.InvalidStructure := by
  have h1 : ¬ (qc.signers.length ≠ params.size ∨ qc.validMembers.length ≠ params.size) := by
    simp [hsl, hvl]
  simp only [ValidateCommitment, hfind]
  rw [if_neg h1, if_pos (Or.inl hlow)]

/-- A concrete commitment for quorum type LLMQ_50_60 with 25 signers out of 50
and 40 valid members out of 50. -/
def qcLowSigners : CFinalCommitment :=
  { quorumType := LLMQType.LLMQ_50_60
    quorumHash := 0
    validMembers := List.replicate 40 true ++ List.replicate 10 false
    quorumPublicKey := 0
    quorumSig := 0
    signers := List.replicate 25 true ++ List.replicate 25 false }

/-- C5 witness: the concrete commitment with 25 signers (threshold 30) and 40
valid members (minSize 40) is rejected with InvalidStructure under the
main-network table. -/
theorem ProcessCommitment_low_signers_witness :
    popcount qcLowSigners.signers < llmq50_60.threshold ∧
    llmq50_60.minSize ≤ popcount qcLowSigners.validMembers ∧
    ValidateCommitment mainLLMQs emptyMined (fun _ _ => 0) qcLowSigners 12 =
      Except.error ValError.InvalidStructure :=
  ⟨by decide, by decide,
    ProcessCommitment_low_signers mainLLMQs emptyMined (fun _ _ => 0)
      qcLowSigners 12 llmq50_60 (by decide) (by decide) (by decide)
      (by decide) (by decide)⟩

/-! ### Block processor -/

/-- Modelled from the spec: the scan loop of
`CQuorumBlockProcessor::GetCommitmentsFromBlock`
(src/llmq/quorums_blockprocessor.h line 50; the implementation file is missing
from the excerpt). Spec section 4.3: extract every commitment of the block,
failing the whole block with TooManyCommitments if more than one commitment
exists for the same quorum type in one block. The accumulator plays the role
of the `std::map` keyed by quorum type. -/
def scanCommitments : List CFinalCommitment → List (LLMQType × CFinalCommitment) →
    Except ValError (List (LLMQType × CFinalCommitment))
  | [], acc => Except.ok acc.reverse
  | qc :: rest, acc =>
    if qc.quorumType ∈ acc.map Prod.fst then
      Except.error ValError.TooManyCommitments
    else
      scanCommitments rest ((qc.quorumType, qc) :: acc)

/-- Modelled from the spec: `CQuorumBlockProcessor::GetCommitmentsFromBlock`,
applied to the commitments carried by a block's special transactions. -/
def GetCommitmentsFromBlock (cs : List CFinalCommitment) :
    Except ValError (List (LLMQType × CFinalCommitment)) :=
  scanCommitments cs []

/-- Modelled from the spec: the per-commitment loop of
`CQuorumBlockProcessor::ProcessBlock` (src/llmq/quorums_blockprocessor.h
line 37; the implementation file is missing from the excerpt). Spec section
4.3: for each commitment, run the Validator; on any failure the block is
rejected; on success the commitment is written into the Mined Commitment
Index keyed by its quorum hash. -/
def ProcessBlockCommitments (llmqs : List LLMQParams)
    (quorumBlockHash : LLMQType → Nat → Nat) (nHeight : Nat) :
    MinedIndex → List CFinalCommitment → Except ValError MinedIndex
  | s, [] => Except.ok s
  | s, qc :: rest =>
    match ValidateCommitment llmqs s quorumBlockHash qc nHeight with
    | Except.error e => Except.error e
    | Except.ok _ =>
      ProcessBlockCommitments llmqs quorumBlockHash nHeight
        (insertMined (commitmentKey qc) qc s) rest

/-- Modelled from the spec: `CQuorumBlockProcessor::ProcessBlock` on the
commitments of a connecting block: first the scan that rejects duplicate
quorum types, then validation and insertion of each commitment in block
order (the scan's map contains exactly the block's commitments once the
duplicate check has passed). -/
def ProcessBlock (llmqs : List LLMQParams)
    (quorumBlockHash : LLMQType → Nat → Nat) (nHeight : Nat)
    (s : MinedIndex) (cs : List CFinalCommitment) : Except ValError MinedIndex :=
  match GetCommitmentsFromBlock cs with
  | Except.error e => Except.error e
  | Except.ok _ => ProcessBlockCommitments llmqs quorumBlockHash nHeight s cs

/-- Modelled from the spec: `CQuorumBlockProcessor::UndoBlock`
(src/llmq/quorums_blockprocessor.h line 38; the implementation file is missing
from the excerpt). Spec section 4.3: for every commitment accepted by this
block, remove its Mined Commitment Index entry. -/
def UndoBlockCommitments : MinedIndex → List CFinalCommitment → MinedIndex
  | s, [] => s
  | s, qc :: rest => UndoBlockCommitments (eraseMined (commitmentKey qc) s) rest

theorem eraseMined_comm (k k' : QKey) (s : MinedIndex) :
    eraseMined k (eraseMined k' s) = eraseMined k' (eraseMined k s) := by
  funext x
  simp only [eraseMined]
  split_ifs <;> rfl

theorem UndoBlockCommitments_erase (k : QKey) (s : MinedIndex)
    (cs : List CFinalCommitment) :
    UndoBlockCommitments (eraseMined k s) cs =
      eraseMined k (UndoBlockCommitments s cs) := by
  induction cs generalizing s with
  | nil => rfl
  | cons qc rest ih =>
    show UndoBlockCommitments (eraseMined (commitmentKey qc) (eraseMined k s)) rest = _
    rw [eraseMined_comm, ih]
    rfl

theorem eraseMined_insertMined_self (k : QKey) (qc : CFinalCommitment)
    (s : MinedIndex) (hk : s k = none) :
    eraseMined k (insertMined k qc s) = s := by
  funext x
  simp only [eraseMined, insertMined]
  split_ifs with hx
  · rw [hx, hk]
  · rfl

/-- A successful structural/positional validation implies that no commitment
for the same key is already accepted (the Duplicate check). -/
theorem ValidateCommitment_ok_not_mined (llmqs : List LLMQParams)
    (s : MinedIndex) (quorumBlockHash : LLMQType → Nat → Nat)
    (qc : CFinalCommitment) (nHeight : Nat)
    (h : ValidateCommitment llmqs s quorumBlockHash qc nHeight = Except.ok ()) :
    s (commitmentKey qc) = none := by
  cases hfind : GetLLMQParams llmqs qc.quorumType with
  | none =>
    simp only [ValidateCommitment, hfind] at h
    exact Except.noConfusion h
  | some params =>
    simp only [ValidateCommitment, hfind] at h
    split_ifs at h with h1 h2 h3 h4
    · exact Option.not_isSome_iff_eq_none.mp h4

theorem ProcessBlockCommitments_undo (llmqs : List LLMQParams)
    (quorumBlockHash : LLMQType → Nat → Nat) (nHeight : Nat)
    (cs : List CFinalCommitment) :
    ∀ s s', ProcessBlockCommitments llmqs quorumBlockHash nHeight s cs =
      Except.ok s' → UndoBlockCommitments s' cs = s := by
  induction cs with
  | nil =>
    intro s s' h
    simp only [ProcessBlockCommitments] at h
    cases h
    rfl
  | cons qc rest ih =>
    intro s s' h
    simp only [ProcessBlockCommitments] at h
    cases hv : ValidateCommitment llmqs s quorumBlockHash qc nHeight with
    | error e => rw [hv] at h; cases h
    | ok u =>
      cases u
      rw [hv] at h
      have hrest := ih (insertMined (commitmentKey qc) qc s) s' h
      show UndoBlockCommitments (eraseMined (commitmentKey qc) s') rest = s
      rw [UndoBlockCommitments_erase, hrest,
        eraseMined_insertMined_self _ _ _
          (ValidateCommitment_ok_not_mined llmqs s quorumBlockHash qc nHeight hv)]

/-- C2: if ProcessBlock accepts a block's commitments, turning state `s` into
`s'`, then UndoBlock on the same block restores the Mined Commitment Index to
exactly `s`, and re-processing the same block after the undo reproduces the
identical accepted state `s'`. -/
theorem ProcessBlock_UndoBlock_roundtrip (llmqs : List LLMQParams)
    (quorumBlockHash : LLMQType → Nat → Nat) (nHeight : Nat)
    (s s' : MinedIndex) (cs : List CFinalCommitment)
    (h : ProcessBlock llmqs quorumBlockHash nHeight s cs = Except.ok s') :
    UndoBlockCommitments s' cs = s ∧
    ProcessBlock llmqs quorumBlockHash nHeight (UndoBlockCommitments s' cs) cs =
      Except.ok s' := by
  have hundo : UndoBlockCommitments s' cs = s := by
    unfold ProcessBlock at h
    cases hscan : GetCommitmentsFromBlock cs with
    | error e => rw [hscan] at h; cases h
    | ok pairs =>
      rw [hscan] at h
      exact ProcessBlockCommitments_undo llmqs quorumBlockHash nHeight cs s s' h
  exact ⟨hundo, by rw [hundo]; exact h⟩

/-- A concrete fully-valid commitment for quorum type LLMQ_50_60: all 50
members signed and are valid. -/
def qcFull : CFinalCommitment :=
  { quorumType := LLMQType.LLMQ_50_60
    quorumHash := 0
    validMembers := List.replicate 50 true
    quorumPublicKey := 0
    quorumSig := 0
    signers := List.replicate 50 true }

/-- C2 witness: processing a block carrying the concrete commitment qcFull
from the empty index succeeds, and undoing it restores the empty index. -/
theorem ProcessBlock_UndoBlock_roundtrip_witness :
    ProcessBlock mainLLMQs (fun _ _ => 0) 12 emptyMined [qcFull] =
      Except.ok (insertMined (commitmentKey qcFull) qcFull emptyMined) ∧
    UndoBlockCommitments (insertMined (commitmentKey qcFull) qcFull emptyMined)
      [qcFull] = emptyMined :=
  ⟨rfl,
    (ProcessBlock_UndoBlock_roundtrip mainLLMQs (fun _ _ => 0) 12 emptyMined
      (insertMined (commitmentKey qcFull) qcFull emptyMined) [qcFull] rfl).1⟩

theorem scanCommitments_dup (cs : List CFinalCommitment) :
    ∀ acc : List (LLMQType × CFinalCommitment),
      (¬ (cs.map CFinalCommitment.quorumType).Nodup ∨
        ∃ qc ∈ cs, qc.quorumType ∈ acc.map Prod.fst) →
      scanCommitments cs acc = Except.error ValError.TooManyCommitments := by
  induction cs with
  | nil =>
    intro acc hdup
    rcases hdup with hnd | ⟨qc, hqc, _⟩
    · exact absurd List.nodup_nil hnd
    · exact absurd hqc (List.not_mem_nil qc)
  | cons qc rest ih =>
    intro acc hdup
    unfold scanCommitments
    split_ifs with hmem
    · rfl
    · apply ih
      rcases hdup with hnd | ⟨qc', hqc', hqc'mem⟩
      · rw [List.map_cons] at hnd
        by_cases hq : qc.quorumType ∈ rest.map CFinalCommitment.quorumType
        · rcases List.mem_map.mp hq with ⟨qc'', hqc'', hqt⟩
          refine Or.inr ⟨qc'', hqc'', ?_⟩
          rw [List.map_cons, hqt]
          exact List.mem_cons_self _ _
        · exact Or.inl (fun hndrest => hnd (List.nodup_cons.mpr ⟨hq, hndrest⟩))
      · rcases List.mem_cons.mp hqc' with hq | hq
        · exact absurd (hq ▸ hqc'mem) hmem
        · refine Or.inr ⟨qc', hq, ?_⟩
          rw [List.map_cons]
          exact List.mem_cons_of_mem _ hqc'mem

/-- C3: a block containing two or more commitments of the same quorum type is
rejected whole with TooManyCommitments by the block scan (hence by
ProcessBlock), regardless of the individual commitments' validity. -/
theorem ProcessBlock_too_many_commitments (llmqs : List LLMQParams)
    (quorumBlockHash : LLMQType → Nat → Nat) (nHeight : Nat)
    (s : MinedIndex) (cs : List CFinalCommitment) (t : LLMQType)
    (h2 : 2 ≤ (cs.map CFinalCommitment.quorumType).count t) :
    GetCommitmentsFromBlock cs = Except.error ValError.TooManyCommitments ∧
    ProcessBlock llmqs quorumBlockHash nHeight s cs =
      Except.error ValError.TooManyCommitments := by
  have hnd : ¬ (cs.map CFinalCommitment.quorumType).Nodup := by
    intro hn
    have := List.nodup_iff_count_le_one.mp hn t
    omega
  have hscan : GetCommitmentsFromBlock cs = Except.error ValError.TooManyCommitments :=
    scanCommitments_dup cs [] (Or.inl hnd)
  refine ⟨hscan, ?_⟩
  unfold ProcessBlock
  rw [hscan]

/-- Two concrete commitments sharing quorum type LLMQ_10_60 but anchored at
different quorum hashes. -/
def qcDupA : CFinalCommitment :=
  { quorumType := LLMQType.LLMQ_10_60
    quorumHash := 1
    validMembers := List.replicate 10 true
    quorumPublicKey := 0
    quorumSig := 0
    signers := List.replicate 10 true }

def qcDupB : CFinalCommitment :=
  { quorumType := LLMQType.LLMQ_10_60
    quorumHash := 2
    validMembers := List.replicate 10 true
    quorumPublicKey := 0
    quorumSig := 0
    signers := List.replicate 10 true }

/-- C3 witness: a block carrying the two concrete same-type commitments is
rejected with TooManyCommitments from the empty index on regtest. -/
theorem ProcessBlock_too_many_commitments_witness :
    2 ≤ ([qcDupA, qcDupB].map CFinalCommitment.quorumType).count LLMQType.LLMQ_10_60 ∧
    (GetCommitmentsFromBlock [qcDupA, qcDupB] =
        Except.error ValError.TooManyCommitments ∧
      ProcessBlock regtestLLMQs (fun _ _ => 0) 12 emptyMined [qcDupA, qcDupB] =
        Except.error ValError.TooManyCommitments) :=
  ⟨by decide,
    ProcessBlock_too_many_commitments regtestLLMQs (fun _ _ => 0) 12 emptyMined
      [qcDupA, qcDupB] LLMQType.LLMQ_10_60 (by decide)⟩

/-! ### Coinbase special transaction checks (src/evo/cbtx.cpp) -/

/-- Transaction type constant for coinbase special transactions
(`TRANSACTION_COINBASE`, referenced by src/evo/cbtx.cpp). -/
def TRANSACTION_COINBASE : Nat := 5

/-- Reject code `REJECT_INVALID` (0x10) used by `CValidationState::DoS`. -/
def REJECT_INVALID : Nat := 16

/-- `CCbTx` payload, src/evo/cbtx.h lines 16-39: version (uint16), height
(int32), masternode-list merkle root (uint256, abstracted as Nat). -/
structure CCbTx where
  nVersion : Nat
  nHeight : Int
  merkleRootMNList : Nat
  deriving DecidableEq, Repr

/-- `CCbTx::CURRENT_VERSION`, src/evo/cbtx.h line 19. -/
def CCbTx.CURRENT_VERSION : Nat := 1

/-- The outcome of `state.DoS(nDoS, false, rejectCode, reason)`:
a rejection carrying a banning score and a reject code with reason string. -/
structure CRejection where
  nDoS : Nat
  rejectCode : Nat
  reason : String
  deriving DecidableEq, Repr

/-- The slice of `CTransaction` that `CheckCbTx` inspects: the special
transaction type tag, whether the transaction is a coinbase, and the result
of deserializing its extra payload as a `CCbTx` (`GetTxPayload`, which is
external deserialization, is represented by its outcome). -/
structure CTransactionCb where
  nType : Nat
  isCoinBase : Bool
  cbPayload : Option CCbTx
  deriving DecidableEq, Repr

/-- `CheckCbTx`, src/evo/cbtx.cpp lines 14-38. `pindexPrev` is represented by
its height when present. -/
def CheckCbTx (tx : CTransactionCb) (pindexPrev : Option Int) :
    Except CRejection Unit :=
  if tx.nType ≠ TRANSACTION_COINBASE then
    Except.error ⟨100, REJECT_INVALID, "bad-cbtx-type"⟩
  else if ¬ tx.isCoinBase then
    Except.error ⟨100, REJECT_INVALID, "bad-cbtx-invalid"⟩
  else
    match tx.cbPayload with
    | none => Except.error ⟨100, REJECT_INVALID, "bad-cbtx-payload"⟩
    | some cbTx =>
      if cbTx.nVersion = 0 ∨ cbTx.nVersion > CCbTx.CURRENT_VERSION then
        Except.error ⟨100, REJECT_INVALID, "bad-cbtx-version"⟩
      else if h : pindexPrev.isSome then
        if pindexPrev.get h + 1 ≠ cbTx.nHeight then
          Except.error ⟨100, REJECT_INVALID, "bad-cbtx-height"⟩
        else
          Except.ok ()
      else
        Except.ok ()

/-- C9: `CheckCbTx` succeeds exactly when the transaction has the coinbase
special type, is a coinbase, carries a deserializable `CCbTx` payload whose
version lies in `[1, CURRENT_VERSION]`, and (when a previous block index is
supplied) whose height equals the previous height plus one; every failure is
a DoS-100 REJECT_INVALID rejection (the check itself mutates nothing). -/
theorem CheckCbTx_characterization (tx : CTransactionCb) (p : Option Int) :
    (CheckCbTx tx p = Except.ok () ↔
      tx.nType = TRANSACTION_COINBASE ∧ tx.isCoinBase = true ∧
      ∃ cbTx, tx.cbPayload = some cbTx ∧
        1 ≤ cbTx.nVersion ∧ cbTx.nVersion ≤ CCbTx.CURRENT_VERSION ∧
        ∀ h : Int, p = some h → cbTx.nHeight = h + 1) ∧
    (∀ e, CheckCbTx tx p = Except.error e →
      e.nDoS = 100 ∧ e.rejectCode = REJECT_INVALID) := by
  constructor
  · cases hpl : tx.cbPayload with
    | none =>
      simp only [CheckCbTx, hpl]
      constructor
      · intro hok
        split_ifs at hok <;> exact Except.noConfusion hok
      · rintro ⟨-, -, cbTx, hsome, -⟩
        exact Option.noConfusion hsome
    | some cbTx =>
      simp only [CheckCbTx, hpl]
      constructor
      · intro hok
        split_ifs at hok with h1 h2 h3 h4 h5 <;>
          try exact Except.noConfusion hok
        · push_neg at h3
          refine ⟨not_not.mp h1, h2, cbTx, rfl, by omega, h3.2, ?_⟩
          intro h hph
          subst hph
          have hget : (some h).get h4 = h := rfl
          rw [hget] at h5
          omega
        · push_neg at h3
          refine ⟨not_not.mp h1, h2, cbTx, rfl, by omega, h3.2, ?_⟩
          intro h hph
          subst hph
          simp at h4
      · rintro ⟨ht, hc, cbTx', hsome, hv1, hv2, hh⟩
        have hcb : cbTx' = cbTx := (Option.some_inj.mp hsome).symm
        subst hcb
        rw [if_neg (not_not.mpr ht), if_neg (not_not.mpr hc),
          if_neg (by omega)]
        cases p with
        | none => rfl
        | some h =>
          have hh' := hh h rfl
          rw [dif_pos (by rfl)]
          rw [if_neg (by simp [Option.get]; omega)]
  · intro e he
    cases hpl : tx.cbPayload with
    | none =>
      simp only [CheckCbTx, hpl] at he
      split_ifs at he
      all_goals
        cases he
        exact ⟨rfl, rfl⟩
    | some cbTx =>
      simp only [CheckCbTx, hpl] at he
      split_ifs at he
      all_goals
        first
          | exact Except.noConfusion he
          | (cases he; exact ⟨rfl, rfl⟩)

/-- C9 witness: a well-formed coinbase special transaction at height 5 on top
of a previous index of height 4 passes CheckCbTx. -/
theorem CheckCbTx_characterization_witness :
    CheckCbTx ⟨TRANSACTION_COINBASE, true, some ⟨1, 5, 777⟩⟩ (some 4) =
      Except.ok () :=
  (CheckCbTx_characterization ⟨TRANSACTION_COINBASE, true, some ⟨1, 5, 777⟩⟩
      (some 4)).1.mpr
    ⟨rfl, rfl, ⟨1, 5, 777⟩, rfl, by decide, by decide, by
      intro h hph
      cases hph
      rfl⟩

/-- `CheckCbTxMerkleRootMNList`, src/evo/cbtx.cpp lines 41-63. The coinbase
transaction of the block is represented by its special type tag and the
outcome of deserializing its `CCbTx` payload; `hasPindex` is whether a block
index was supplied; `calcResult` is the outcome of
`CalcCbTxMerkleRootMNList` (src/evo/cbtx.cpp lines 65-79), which delegates to
the external deterministic masternode-list manager and fails when the list
cannot be built or the merkle computation reports mutation. -/
def CheckCbTxMerkleRootMNList (vtx0Type : Nat) (payload : Option CCbTx)
    (hasPindex : Bool) (calcResult : Option Nat) : Except CRejection Unit :=
  if vtx0Type ≠ TRANSACTION_COINBASE then
    Except.ok ()
  else
    match payload with
    | none => Except.error ⟨100, REJECT_INVALID, "bad-cbtx-payload"⟩
    | some cbTx =>
      if hasPindex then
        match calcResult with
        | none => Except.error ⟨100, REJECT_INVALID, "bad-cbtx-mnmerkleroot"⟩
        | some calculatedMerkleRoot =>
          if calculatedMerkleRoot ≠ cbTx.merkleRootMNList then
            Except.error ⟨100, REJECT_INVALID, "bad-cbtx-mnmerkleroot"⟩
          else
            Except.ok ()
      else
        Except.ok ()

/-- C8: for a coinbase-typed block transaction with deserializable payload, a
supplied block index and a successfully computed masternode-list merkle root,
the verifier rejects with a DoS-100 bad-cbtx-mnmerkleroot rejection exactly
when the computed root differs from the root declared in the payload, and
accepts exactly when they are equal. -/
theorem CheckCbTxMerkleRootMNList_root_check (cbTx : CCbTx) (root : Nat) :
    (CheckCbTxMerkleRootMNList TRANSACTION_COINBASE (some cbTx) true (some root) =
        Except.error ⟨100, REJECT_INVALID, "bad-cbtx-mnmerkleroot"⟩ ↔
      root ≠ cbTx.merkleRootMNList) ∧
    (CheckCbTxMerkleRootMNList TRANSACTION_COINBASE (some cbTx) true (some root) =
        Except.ok () ↔
      root = cbTx.merkleRootMNList) := by
  have hred : CheckCbTxMerkleRootMNList TRANSACTION_COINBASE (some cbTx) true
      (some root) =
      if root ≠ cbTx.merkleRootMNList then
        Except.error ⟨100, REJECT_INVALID, "bad-cbtx-mnmerkleroot"⟩
      else Except.ok () := rfl
  rw [hred]
  by_cases h : root = cbTx.merkleRootMNList <;> simp [h]

/-! ### Masternode payment vote hashing (src/masternode-payments.h) -/

/-- One streamed field of `CMasternodePaymentVote::SerializationOp`: the vote's
outpoint (tx hash and output index), block height, payee script bytes, or
signature bytes. -/
inductive SerItem where
  | outpointItem : Nat × Nat → SerItem
  | heightItem : Int → SerItem
  | scriptItem : List Nat → SerItem
  | sigItem : List Nat → SerItem
  deriving DecidableEq, Repr

/-- Serialization-type flag `SER_GETHASH` (1 shifted left 2, from
serialize.h), tested by `s.GetType() & SER_GETHASH`. -/
def SER_GETHASH : Nat := 4

/-- `CMasternodePaymentVote`, src/masternode-payments.h lines 108-156: the
outpoint is the pair (tx hash, output index); the payee script and the
signature are byte lists. -/
structure CMasternodePaymentVote where
  masternodeOutpoint : Nat × Nat
  nBlockHeight : Int
  payee : List Nat
  vchSig : List Nat
  deriving DecidableEq, Repr

/-- `CMasternodePaymentVote::SerializationOp`, src/masternode-payments.h lines
133-141: streams the outpoint, the block height and the payee script, and the
signature only when the stream type does not carry `SER_GETHASH`. -/
def SerializationOp (v : CMasternodePaymentVote) (nType : Nat) : List SerItem :=
  [SerItem.outpointItem v.masternodeOutpoint,
   SerItem.heightItem v.nBlockHeight,
   SerItem.scriptItem v.payee] ++
  (if nType &&& SER_GETHASH = 0 then [SerItem.sigItem v.vchSig] else [])

/-- `CMasternodePaymentVote::GetHash`: the hash of the vote's serialization
under a `SER_GETHASH` stream; the hash primitive itself is external and is
abstracted as a parameter. -/
def GetHash (hashFn : List SerItem → Nat) (v : CMasternodePaymentVote) : Nat :=
  hashFn (SerializationOp v SER_GETHASH)

/-- C10: the hash identity of a masternode payment vote is independent of its
signature: two votes agreeing on outpoint, block height and payee but
differing in vchSig have identical SER_GETHASH serializations, hence GetHash
agrees for every hash primitive. -/
theorem vote_hash_ignores_signature (v1 v2 : CMasternodePaymentVote)
    (ho : v1.masternodeOutpoint = v2.masternodeOutpoint)
    (hh : v1.nBlockHeight = v2.nBlockHeight)
    (hp : v1.payee = v2.payee)
    (hs : v1.vchSig ≠ v2.vchSig) :
    SerializationOp v1 SER_GETHASH = SerializationOp v2 SER_GETHASH ∧
    ∀ hashFn : List SerItem → Nat, GetHash hashFn v1 = GetHash hashFn v2 := by
  have hser : SerializationOp v1 SER_GETHASH = SerializationOp v2 SER_GETHASH := by
    simp [SerializationOp, SER_GETHASH, ho, hh, hp]
  exact ⟨hser, fun hashFn => by rw [GetHash, GetHash, hser]⟩

/-- Two concrete votes that agree on everything but the signature bytes. -/
def voteA : CMasternodePaymentVote :=
  { masternodeOutpoint := (7, 0)
    nBlockHeight := 100
    payee := [1, 2, 3]
    vchSig := [9, 9] }

def voteB : CMasternodePaymentVote :=
  { masternodeOutpoint := (7, 0)
    nBlockHeight := 100
    payee := [1, 2, 3]
    vchSig := [8] }

/-- C10 witness: the two concrete votes differ in signature yet hash alike
(exercised with a concrete hash primitive). -/
theorem vote_hash_ignores_signature_witness :
    voteA.vchSig ≠ voteB.vchSig ∧
    (SerializationOp voteA SER_GETHASH = SerializationOp voteB SER_GETHASH ∧
      ∀ hashFn : List SerItem → Nat, GetHash hashFn voteA = GetHash hashFn voteB) :=
  ⟨by decide,
    vote_hash_ignores_signature voteA voteB rfl rfl rfl (by decide)⟩
